import Mathlib

set_option maxRecDepth 8000

/-!
Verification of the finance question-answering orchestration script
(src/src/orchestration.py) against its specification.

The script configures five agents of the openai-agents SDK (triage, basic,
assumption, conceptual, critic) with fixed tool and hand-off allowances and
drives them from a batch loop in main.  The generation capability (gpt-4o) is a
nondeterministic black box, so a Run is modelled as any event trail consistent
with the configured tool and hand-off allowances (the SDK runner executes tool
calls only for tools in the invoking agent's configuration and hand-offs only to
configured targets, and a run ends when the active agent produces a final
output).  The driver logic of main (lines 508-564) is modelled exactly.
-/

/-- Configuration of the FileSearchTool (source lines 28-34). -/
structure FileSearchConfig where
  vector_store_ids : List String
  max_num_results : Option Nat
  include_search_results : Bool
  ranking_options : Option String
  filters : Option String
deriving DecidableEq, Repr

/-- Configuration of the WebSearchTool (source lines 36-39). -/
structure WebSearchConfig where
  user_location : Option String
  search_context_size : String
deriving DecidableEq, Repr

/-- A tool as attached to an agent: the document file-search tool, the
web-search tool, or another agent exposed as a callable tool via as_tool
(source lines 491-502). -/
inductive ToolRef
  | fileSearch (cfg : FileSearchConfig)
  | webSearch (cfg : WebSearchConfig)
  | agentTool (tool_name : String) (agent_name : String) (tool_description : String)
deriving DecidableEq, Repr

/-- The module-level FileSearchTool (source lines 28-34).  Its vector store id
is a hardcoded literal, fixed at import time. -/
def file_search_tool : ToolRef :=
  ToolRef.fileSearch
    { vector_store_ids := ["vs_68993210d6d481918d95319746f5d133"]
      max_num_results := some 5
      include_search_results := true
      ranking_options := none
      filters := none }

/-- The module-level WebSearchTool (source lines 36-39). -/
def web_search_tool : ToolRef :=
  ToolRef.webSearch { user_location := none, search_context_size := "medium" }

/-- Excerpt of the triage agent prompt (source lines 41-102).  The prompt is
free natural-language policy text for the black-box generation capability;
only the lines the claims reference are reproduced. -/
def triage_agent_prompt : String :=
  "You are the Financial Question Triage Agent. DO NOT try to answer the question yourself or output your own answer. Handoff to the appropriate agent based on the question and give the agent question and the context."

/-- Excerpt of the basic agent prompt (source lines 104-189). -/
def basic_agent_prompt : String :=
  "You are a financial analysis expert. Use the File Search Tool to search the context file for the data."

/-- Excerpt of the assumption agent prompt (source lines 190-395). -/
def assumption_agent_prompt : String :=
  "You are the Financial Assumption Agent. You MUST call the transfer_to_critic_agent tool after completing your analysis."

/-- Excerpt of the conceptual agent prompt (source lines 397-440). -/
def conceptual_agent_prompt : String :=
  "You are the Conceptual Financial Agent. Do NOT attempt to calculate or estimate company-specific figures."

/-- Excerpt of the critic agent prompt (source lines 442-453). -/
def critic_agent_prompt : String :=
  "You are a reflective AI agent tasked with critically analyzing financial analyses. Review the provided context, question, and response and provide a detailed critique."

/-- An Agent value of the SDK: name, model, free-text instructions, tool list
and hand-off targets (referenced by agent name).  Allowances are fixed at
construction and never mutated. -/
structure Agent where
  name : String
  model : String
  instructions : String
  tools : List ToolRef
  handoffs : List String
deriving DecidableEq, Repr

/-- The critic agent (source lines 457-462). -/
def critic_agent : Agent :=
  { name := "critic_agent"
    model := "gpt-4o"
    instructions := critic_agent_prompt
    tools := [file_search_tool, web_search_tool]
    handoffs := [] }

/-- The basic agent (source lines 464-469). -/
def basic_agent : Agent :=
  { name := "basic_agent"
    model := "gpt-4o"
    instructions := basic_agent_prompt
    tools := [file_search_tool]
    handoffs := [] }

/-- The assumption agent (source lines 471-477). -/
def assumption_agent : Agent :=
  { name := "assumption_agent"
    model := "gpt-4o"
    instructions := assumption_agent_prompt
    tools := [file_search_tool, web_search_tool]
    handoffs := ["critic_agent"] }

/-- The conceptual agent (source lines 479-483). -/
def conceptual_agent : Agent :=
  { name := "conceptual_agent"
    model := "gpt-4o"
    instructions := conceptual_agent_prompt
    tools := []
    handoffs := [] }

/-- The triage agent (source lines 485-506): file search, web search, the three
specialists exposed as consult tools via as_tool, and the three specialists as
hand-off targets. -/
def triage_agent : Agent :=
  { name := "triage_agent"
    model := "gpt-4o"
    instructions := triage_agent_prompt
    tools :=
      [file_search_tool,
       web_search_tool,
       ToolRef.agentTool "consult_basic_specialist" "basic_agent"
         "Use when the question is classified as basic.",
       ToolRef.agentTool "consult_assumption_specialist" "assumption_agent"
         "Use when the question is classified as assumption-based.",
       ToolRef.agentTool "consult_conceptual_specialist" "conceptual_agent"
         "Use when the question is classified as conceptual."]
    handoffs := ["basic_agent", "assumption_agent", "conceptual_agent"] }

/-- Registry of the module-level agent constants. -/
def agents : List Agent :=
  [critic_agent, basic_agent, assumption_agent, conceptual_agent, triage_agent]

/-- Look an agent up by name. -/
def agentNamed (n : String) : Option Agent :=
  agents.find? fun a => a.name == n

/-- One entry of a Run's audit trail: a tool call executed on behalf of the
active agent, a free-text message emitted by the active agent, a hand-off
transferring control to another agent, or the final output ending the run. -/
inductive Event
  | toolCall (agent : String) (tool : ToolRef) (query : String) (result : String)
  | message (agent : String) (content : String)
  | handoff (fromAgent : String) (toAgent : String)
  | finalOutput (agent : String) (output : String)
deriving DecidableEq, Repr

/-- Trails the SDK runner can produce from a given active agent, with tool
results supplied by a deterministic Capability Adapter function.  The runner
executes a tool call only when the tool is in the active agent's configured
tool list, follows a hand-off only to a configured target (control then passes
to that agent), and ends the run when the active agent produces a final
output.  Which of the permitted steps occurs is decided by the black-box
generation capability, hence the relation is nondeterministic. -/
inductive ValidTrail (adapter : ToolRef → String → String) : String → List Event → Prop
  | final (a : String) (s : String) :
      ValidTrail adapter a [Event.finalOutput a s]
  | message (a : String) (s : String) (rest : List Event) :
      ValidTrail adapter a rest →
      ValidTrail adapter a (Event.message a s :: rest)
  | tool (a : String) (agA : Agent) (t : ToolRef) (q : String) (rest : List Event) :
      agentNamed a = some agA → t ∈ agA.tools →
      ValidTrail adapter a rest →
      ValidTrail adapter a (Event.toolCall a t q (adapter t q) :: rest)
  | handoff (a : String) (agA : Agent) (b : String) (rest : List Event) :
      agentNamed a = some agA → b ∈ agA.handoffs →
      ValidTrail adapter b rest →
      ValidTrail adapter a (Event.handoff a b :: rest)

/-- One Run for a question (main line 543: Runner.run(triage_agent, question)).
The question reaches only the black-box generation capability, so it does not
further constrain which of the configuration-permitted trails occurs. -/
def ValidRun (question : String) (adapter : ToolRef → String → String)
    (tr : List Event) : Prop :=
  ValidTrail adapter "triage_agent" tr

/-- The questions list of main (source lines 522-530; only the uncommented
entry). -/
def questions : List String :=
  ["What is Gross Profit in the year ending 2024?"]

/-- Character-list prefix test, used to model Python substring membership. -/
def isPrefixOfChars : List Char → List Char → Bool
  | [], _ => true
  | _ :: _, [] => false
  | a :: as, b :: bs => a == b && isPrefixOfChars as bs

/-- Character-list substring test. -/
def containsChars : List Char → List Char → Bool
  | [], pat => pat.isEmpty
  | h :: t, pat => isPrefixOfChars pat (h :: t) || containsChars t pat

/-- Python substring membership: pat in s. -/
def pyContains (s pat : String) : Bool :=
  containsChars s.data pat.data

/-- Python str.lower, character-wise (the strings involved are ASCII). -/
def pyLower (s : String) : String :=
  String.mk (s.data.map Char.toLower)

/-- The hand-off detection heuristic of main (lines 549-554): the review is
reported as confirmed exactly when the lowercased final output contains the
substring critique or the substring review. -/
def handoffCheck (final_output : String) : Bool :=
  pyContains (pyLower final_output) "critique" || pyContains (pyLower final_output) "review"

/-- What the driver reports for one question: the accepted final output and the
hand-off heuristic's verdict. -/
structure QuestionReport where
  final_output : String
  handoff_confirmed : Bool
deriving DecidableEq, Repr

/-- Driver processing of a run result (main lines 545-554): the final output is
printed and accepted as-is and the substring heuristic is applied to it.  There
is no retry, no validation and no failure state. -/
def processResult (final_output : String) : QuestionReport :=
  { final_output := final_output
    handoff_confirmed := handoffCheck final_output }

/-- Final output of a run: the output carried by the last event when that event
is a final output (in every valid trail the last event is the active agent's
final output). -/
def runFinalOutput (tr : List Event) : Option String :=
  match tr.getLast? with
  | some (Event.finalOutput _ s) => some s
  | _ => none

/-- Driver processing of one question of the batch (main lines 534-564): run
the triage agent, take result.final_output, accept it, and apply the substring
hand-off check. -/
def mainProcessQuestion (tr : List Event) : Option QuestionReport :=
  (runFinalOutput tr).map processResult

/-- Classification categories of the triage prompt. -/
inductive Category
  | basic
  | assumption
  | conceptual
deriving DecidableEq, Repr

/-- The specialist agent responsible for a category. -/
def categoryAgent : Category → String
  | Category.basic => "basic_agent"
  | Category.assumption => "assumption_agent"
  | Category.conceptual => "conceptual_agent"

/-- Delegation target of a run: the target of the first hand-off out of the
triage agent.  In the source the classification decision manifests exactly as
this hand-off (triage prompt, Handoff Instructions section). -/
def delegationTarget : List Event → Option String
  | [] => none
  | Event.handoff f b :: rest =>
      if f == "triage_agent" then some b else delegationTarget rest
  | _ :: rest => delegationTarget rest

/-- Category corresponding to a delegation target. -/
def categoryOfTarget (d : String) : Option Category :=
  if d = "basic_agent" then some Category.basic
  else if d = "assumption_agent" then some Category.assumption
  else if d = "conceptual_agent" then some Category.conceptual
  else none

/-- Classification category of a run, read off its delegation. -/
def runCategory (tr : List Event) : Option Category :=
  (delegationTarget tr).bind categoryOfTarget

/-- Hand-off events signalled by a Responder, as opposed to the delegation of
the run by the triage layer (the spec's Classified to Delegated transition,
performed by the orchestration layer, is not a Responder HandoffEvent). -/
def isResponderHandoff : Event → Bool
  | Event.handoff f _ => f != "triage_agent"
  | _ => false

/-- The Responder-signalled hand-off events of a trail. -/
def responderHandoffs (tr : List Event) : List Event :=
  tr.filter isResponderHandoff

/-- Number of hand-off events targeting a given agent. -/
def handoffsTo (b : String) (tr : List Event) : Nat :=
  (tr.filter fun e =>
    match e with
    | Event.handoff _ t => t == b
    | _ => false).length

/-- Error taxonomy of the specification (section 7). -/
inductive ErrorKind
  | ToolTransientFailure
  | ToolNotPermitted
  | IllegalHandoff
  | MalformedOutput
  | MissingMandatoryHandoff
  | ClassificationAmbiguous
deriving DecidableEq, Repr

/-- Modelled from the spec: the hard boundary of the Capability Adapter layer
(section 4.3) — a tool invocation is executed only when the tool is in the
invoking agent's allowance and otherwise fails fast with ToolNotPermitted.  In
src this boundary is realised by the agents SDK, which exposes to each model
exactly the configured tools. -/
def invokeTool (agA : Agent) (t : ToolRef) (q : String)
    (adapter : ToolRef → String → String) : Except ErrorKind String :=
  if t ∈ agA.tools then Except.ok (adapter t q) else Except.error ErrorKind.ToolNotPermitted

/-- Modelled from the spec: the required structured output shape of section 4.3
(category restated, answer or verdict, explicit assumptions list).  No such
validation exists in src; the predicate only renders the spec's shape
requirement so that claim C6 can be stated. -/
def specRequiredShape (s : String) : Bool :=
  (pyContains s "classification" || pyContains s "category") && pyContains s "assumptions"

/-- State of a vector store at the document-search service. -/
structure VectorStore where
  id : String
  name : String
  files : List String
deriving DecidableEq, Repr

/-- The vector-store setup of main (source lines 509-518): a fresh store named
financial_context is created, its id assigned by the service, and the context
file is uploaded into it.  Nothing else in the script mentions the new store. -/
def mainVectorStoreSetup (assignedId : String) : VectorStore :=
  { id := assignedId
    name := "financial_context"
    files := ["src/data/context.txt"] }

/-- Vector store ids a tool searches (empty for non file-search tools). -/
def ToolRef.vectorStoreIds : ToolRef → List String
  | ToolRef.fileSearch cfg => cfg.vector_store_ids
  | _ => []

example : agentNamed "basic_agent" = some basic_agent := by decide
example : handoffCheck "Critique: the figure is off" = true := by decide
example : handoffCheck "All figures match the filing" = false := by decide
example : runCategory [Event.handoff "triage_agent" "basic_agent",
  Event.finalOutput "basic_agent" "x"] = some Category.basic := by decide

theorem ValidTrail.ne_nil {adapter : ToolRef → String → String} {a : String}
    {tr : List Event} (h : ValidTrail adapter a tr) : tr ≠ [] := by
  cases h <;> simp

theorem getLast?_cons_isSome (e : Event) (rest : List Event) :
    ((e :: rest).getLast?).isSome = true := by
  induction rest generalizing e with
  | nil => rfl
  | cons f fs ih => rw [List.getLast?_cons_cons]; exact ih f

theorem runFinalOutput_cons_of_ne_nil (e : Event) {rest : List Event}
    (h : rest ≠ []) : runFinalOutput (e :: rest) = runFinalOutput rest := by
  cases rest with
  | nil => exact absurd rfl h
  | cons f fs => unfold runFinalOutput; rw [List.getLast?_cons_cons]

theorem runFinalOutput_append_cons (pre : List Event) (e : Event) (rest : List Event) :
    runFinalOutput (pre ++ e :: rest) = runFinalOutput (e :: rest) := by
  unfold runFinalOutput
  rw [List.getLast?_append]
  cases h : (e :: rest).getLast? with
  | none => have := getLast?_cons_isSome e rest; rw [h] at this; cases this
  | some x => rfl

theorem delegationTarget_message (a s : String) (tr : List Event) :
    delegationTarget (Event.message a s :: tr) = delegationTarget tr := rfl

theorem delegationTarget_toolCall (a : String) (t : ToolRef) (q r : String)
    (tr : List Event) :
    delegationTarget (Event.toolCall a t q r :: tr) = delegationTarget tr := rfl

theorem delegationTarget_finalOutput (a s : String) (tr : List Event) :
    delegationTarget (Event.finalOutput a s :: tr) = delegationTarget tr := rfl

theorem delegationTarget_handoff (f b : String) (tr : List Event) :
    delegationTarget (Event.handoff f b :: tr) =
      if f == "triage_agent" then some b else delegationTarget tr := rfl

theorem tool_mem_allowed {adapter : ToolRef → String → String} {a : String}
    {tr : List Event} (h : ValidTrail adapter a tr) :
    ∀ ag t qq r, Event.toolCall ag t qq r ∈ tr →
      ∃ agA, agentNamed ag = some agA ∧ t ∈ agA.tools := by
  induction h with
  | final a s =>
      intro ag t qq r hm
      simp at hm
  | message a s rest hrest ih =>
      intro ag t qq r hm
      rcases List.mem_cons.mp hm with hc | hm'
      · cases hc
      · exact ih ag t qq r hm'
  | tool a agA t q rest hname hmem hrest ih =>
      intro ag t' qq r hm
      rcases List.mem_cons.mp hm with hc | hm'
      · injection hc with h1 h2 h3 h4
        subst h1; subst h2
        exact ⟨agA, hname, hmem⟩
      · exact ih ag t' qq r hm'
  | handoff a agA b rest hname hmem hrest ih =>
      intro ag t qq r hm
      rcases List.mem_cons.mp hm with hc | hm'
      · cases hc
      · exact ih ag t qq r hm'

theorem tool_result_from_adapter {adapter : ToolRef → String → String} {a : String}
    {tr : List Event} (h : ValidTrail adapter a tr) :
    ∀ ag t qq r, Event.toolCall ag t qq r ∈ tr → r = adapter t qq := by
  induction h with
  | final a s =>
      intro ag t qq r hm
      simp at hm
  | message a s rest hrest ih =>
      intro ag t qq r hm
      rcases List.mem_cons.mp hm with hc | hm'
      · cases hc
      · exact ih ag t qq r hm'
  | tool a agA t q rest hname hmem hrest ih =>
      intro ag t' qq r hm
      rcases List.mem_cons.mp hm with hc | hm'
      · injection hc with h1 h2 h3 h4
        subst h2; subst h3; subst h4
        rfl
      · exact ih ag t' qq r hm'
  | handoff a agA b rest hname hmem hrest ih =>
      intro ag t qq r hm
      rcases List.mem_cons.mp hm with hc | hm'
      · cases hc
      · exact ih ag t qq r hm'

theorem no_handoffs_of_no_targets {adapter : ToolRef → String → String} {a : String}
    {tr : List Event} (h : ValidTrail adapter a tr) :
    ∀ agA, agentNamed a = some agA → agA.handoffs = [] →
      ∀ f b, Event.handoff f b ∉ tr := by
  induction h with
  | final a s =>
      intro agA hn he f b hm
      simp at hm
  | message a s rest hrest ih =>
      intro agA hn he f b hm
      rcases List.mem_cons.mp hm with hc | hm'
      · cases hc
      · exact ih agA hn he f b hm'
  | tool a agB t q rest hname hmem hrest ih =>
      intro agA hn he f b hm
      rcases List.mem_cons.mp hm with hc | hm'
      · cases hc
      · exact ih agA hn he f b hm'
  | handoff a agB b' rest hname hmem hrest ih =>
      intro agA hn he f b hm
      rw [hname] at hn
      injection hn with hEq
      subst hEq
      rw [he] at hmem
      cases hmem

theorem triage_delegation_decomp {adapter : ToolRef → String → String} {a : String}
    {tr : List Event} (h : ValidTrail adapter a tr) :
    ∀ d, a = "triage_agent" → delegationTarget tr = some d →
      ∃ pre rest, tr = pre ++ Event.handoff "triage_agent" d :: rest ∧
        ValidTrail adapter d rest ∧ ∀ f b, Event.handoff f b ∉ pre := by
  induction h with
  | final a s =>
      intro d ha hd
      rw [delegationTarget_finalOutput] at hd
      cases hd
  | message a s rest hrest ih =>
      intro d ha hd
      rw [delegationTarget_message] at hd
      obtain ⟨pre, rest', heq, hvt, hpre⟩ := ih d ha hd
      refine ⟨Event.message a s :: pre, rest', by rw [heq]; rfl, hvt, ?_⟩
      intro f b hm
      rcases List.mem_cons.mp hm with hc | hm'
      · cases hc
      · exact hpre f b hm'
  | tool a agA t q rest hname hmem hrest ih =>
      intro d ha hd
      rw [delegationTarget_toolCall] at hd
      obtain ⟨pre, rest', heq, hvt, hpre⟩ := ih d ha hd
      refine ⟨Event.toolCall a t q (adapter t q) :: pre, rest', by rw [heq]; rfl, hvt, ?_⟩
      intro f b hm
      rcases List.mem_cons.mp hm with hc | hm'
      · cases hc
      · exact hpre f b hm'
  | handoff a agA b rest hname hmem hrest ih =>
      intro d ha hd
      subst ha
      rw [delegationTarget_handoff] at hd
      simp only [beq_self_eq_true, if_true] at hd
      injection hd with hbd
      subst hbd
      exact ⟨[], rest, rfl, hrest, by intro f b' hm; cases hm⟩

theorem final_output_of_no_handoffs {adapter : ToolRef → String → String} {a : String}
    {tr : List Event} (h : ValidTrail adapter a tr) :
    (∀ f b, Event.handoff f b ∉ tr) →
      ∃ s, runFinalOutput tr = some s ∧ Event.finalOutput a s ∈ tr := by
  induction h with
  | final a s =>
      intro hnh
      exact ⟨s, rfl, List.mem_singleton.mpr rfl⟩
  | message a s rest hrest ih =>
      intro hnh
      have hnh' : ∀ f b, Event.handoff f b ∉ rest := fun f b hm =>
        hnh f b (List.mem_cons_of_mem _ hm)
      obtain ⟨s', h1, h2⟩ := ih hnh'
      exact ⟨s', by rw [runFinalOutput_cons_of_ne_nil _ hrest.ne_nil]; exact h1,
        List.mem_cons_of_mem _ h2⟩
  | tool a agA t q rest hname hmem hrest ih =>
      intro hnh
      have hnh' : ∀ f b, Event.handoff f b ∉ rest := fun f b hm =>
        hnh f b (List.mem_cons_of_mem _ hm)
      obtain ⟨s', h1, h2⟩ := ih hnh'
      exact ⟨s', by rw [runFinalOutput_cons_of_ne_nil _ hrest.ne_nil]; exact h1,
        List.mem_cons_of_mem _ h2⟩
  | handoff a agA b rest hname hmem hrest ih =>
      intro hnh
      exact absurd (List.mem_cons_self _ _) (hnh a b)

/-- C2: in every Run, no recorded ToolCall references a tool outside the
invoking Responder's fixed allowance — the basic agent may invoke only the
document file-search tool, the assumption and critic agents may invoke the
file-search and web-search tools, and the conceptual agent may invoke no tool
at all — and an invocation outside the allowance fails fast with
ToolNotPermitted instead of being silently dropped. -/
theorem C2_tool_allowance (q : String) (adapter : ToolRef → String → String)
    (tr : List Event) (h : ValidRun q adapter tr) :
    (∀ ag t qq r, Event.toolCall ag t qq r ∈ tr →
      ((ag = "basic_agent" → t = file_search_tool) ∧
       (ag = "assumption_agent" → t = file_search_tool ∨ t = web_search_tool) ∧
       (ag = "critic_agent" → t = file_search_tool ∨ t = web_search_tool) ∧
       ag ≠ "conceptual_agent")) ∧
    (∀ agA t, t ∉ agA.tools → ∀ qq,
      invokeTool agA t qq adapter = Except.error ErrorKind.ToolNotPermitted) := by
  constructor
  · intro ag t qq r hm
    obtain ⟨agA, hn, ht⟩ := tool_mem_allowed h ag t qq r hm
    refine ⟨?_, ?_, ?_, ?_⟩
    · intro hb; subst hb
      have hba : agentNamed "basic_agent" = some basic_agent := by decide
      rw [hba] at hn; injection hn with he; subst he
      simpa [basic_agent] using ht
    · intro hb; subst hb
      have hba : agentNamed "assumption_agent" = some assumption_agent := by decide
      rw [hba] at hn; injection hn with he; subst he
      simpa [assumption_agent] using ht
    · intro hb; subst hb
      have hba : agentNamed "critic_agent" = some critic_agent := by decide
      rw [hba] at hn; injection hn with he; subst he
      simpa [critic_agent] using ht
    · intro hb; subst hb
      have hba : agentNamed "conceptual_agent" = some conceptual_agent := by decide
      rw [hba] at hn; injection hn with he; subst he
      simp [conceptual_agent] at ht
  · intro agA t hnot qq
    unfold invokeTool
    rw [if_neg hnot]

theorem C2_tool_allowance_witness :
    invokeTool basic_agent web_search_tool "market price of Costco"
      (fun _ _ => "") = Except.error ErrorKind.ToolNotPermitted :=
  (C2_tool_allowance "What is Gross Profit in the year ending 2024?" (fun _ _ => "")
    [Event.finalOutput "triage_agent" "done"]
    (ValidTrail.final "triage_agent" "done")).2
    basic_agent web_search_tool (by decide) "market price of Costco"

/-- C3: for every Run whose Classification category is Basic or Conceptual,
the Audit Trail contains zero Responder-signalled hand-off events, and the Run
moves directly from delegation to a terminal output produced by the delegated
Responder itself, with no review pass. -/
theorem C3_basic_conceptual_direct_terminal (q : String)
    (adapter : ToolRef → String → String) (tr : List Event)
    (h : ValidRun q adapter tr) (c : Category)
    (hc : runCategory tr = some c)
    (hbc : c = Category.basic ∨ c = Category.conceptual) :
    responderHandoffs tr = [] ∧
      ∃ s, runFinalOutput tr = some s ∧ Event.finalOutput (categoryAgent c) s ∈ tr := by
  have h' : ValidTrail adapter "triage_agent" tr := h
  obtain ⟨d, hdel, hcat⟩ :
      ∃ d, delegationTarget tr = some d ∧ categoryOfTarget d = some c := by
    unfold runCategory at hc
    cases hdd : delegationTarget tr with
    | none => rw [hdd] at hc; cases hc
    | some d => rw [hdd] at hc; exact ⟨d, rfl, hc⟩
  have hda : d = categoryAgent c := by
    unfold categoryOfTarget at hcat
    rcases hbc with rfl | rfl <;>
      · split_ifs at hcat <;> simp_all [categoryAgent]
  subst hda
  obtain ⟨pre, rest, htr, hvt, hpre⟩ := triage_delegation_decomp h' (categoryAgent c) rfl hdel
  have hhand : ∀ f b, Event.handoff f b ∉ rest := by
    rcases hbc with rfl | rfl
    · exact no_handoffs_of_no_targets hvt basic_agent (by decide) rfl
    · exact no_handoffs_of_no_targets hvt conceptual_agent (by decide) rfl
  subst htr
  constructor
  · unfold responderHandoffs
    rw [List.filter_append]
    have hf1 : List.filter isResponderHandoff pre = [] := by
      rw [List.filter_eq_nil_iff]
      intro e he
      cases e with
      | handoff f b => exact absurd he (hpre f b)
      | toolCall ag t qq r => simp [isResponderHandoff]
      | message ag s => simp [isResponderHandoff]
      | finalOutput ag s => simp [isResponderHandoff]
    have hf2 : List.filter isResponderHandoff
        (Event.handoff "triage_agent" (categoryAgent c) :: rest) = [] := by
      rw [List.filter_cons]
      have hfalse : isResponderHandoff (Event.handoff "triage_agent" (categoryAgent c)) = false := rfl
      rw [hfalse]
      simp only [Bool.false_eq_true, if_false]
      rw [List.filter_eq_nil_iff]
      intro e he
      cases e with
      | handoff f b => exact absurd he (hhand f b)
      | toolCall ag t qq r => simp [isResponderHandoff]
      | message ag s => simp [isResponderHandoff]
      | finalOutput ag s => simp [isResponderHandoff]
    rw [hf1, hf2]
    rfl
  · obtain ⟨s, hs1, hs2⟩ := final_output_of_no_handoffs hvt hhand
    refine ⟨s, ?_, ?_⟩
    · rw [runFinalOutput_append_cons, runFinalOutput_cons_of_ne_nil _ hvt.ne_nil]
      exact hs1
    · exact List.mem_append_right _ (List.mem_cons_of_mem _ hs2)

theorem C3_basic_conceptual_direct_terminal_witness :
    responderHandoffs
      [Event.handoff "triage_agent" "basic_agent",
       Event.finalOutput "basic_agent" "Gross Profit is 32095"] = [] ∧
    ∃ s, runFinalOutput
        [Event.handoff "triage_agent" "basic_agent",
         Event.finalOutput "basic_agent" "Gross Profit is 32095"] = some s ∧
      Event.finalOutput (categoryAgent Category.basic) s ∈
        [Event.handoff "triage_agent" "basic_agent",
         Event.finalOutput "basic_agent" "Gross Profit is 32095"] :=
  C3_basic_conceptual_direct_terminal "What is Gross Profit in the year ending 2024?"
    (fun _ _ => "snippet")
    [Event.handoff "triage_agent" "basic_agent",
     Event.finalOutput "basic_agent" "Gross Profit is 32095"]
    (ValidTrail.handoff _ triage_agent _ _ (by decide) (by decide)
      (ValidTrail.final "basic_agent" "Gross Profit is 32095"))
    Category.basic (by decide) (Or.inl rfl)

/-- C9: the batch driver reports the mandatory review as confirmed exactly when
the string form of the Run's final output contains the substring critique or
the substring review case-insensitively; a reviewed Run whose Critic output
lacks both substrings is reported as not handed off, and a non-reviewed Run
whose output contains either substring is reported as reviewed. -/
theorem C9_substring_review_detection (s aOut cOut : String) :
    ((processResult s).handoff_confirmed = true ↔
      (pyContains (pyLower s) "critique" = true ∨ pyContains (pyLower s) "review" = true)) ∧
    (handoffCheck cOut = false →
      mainProcessQuestion
        [Event.handoff "triage_agent" "assumption_agent",
         Event.message "assumption_agent" aOut,
         Event.handoff "assumption_agent" "critic_agent",
         Event.finalOutput "critic_agent" cOut] =
        some { final_output := cOut, handoff_confirmed := false }) ∧
    (handoffCheck s = true →
      mainProcessQuestion
        [Event.handoff "triage_agent" "basic_agent",
         Event.finalOutput "basic_agent" s] =
        some { final_output := s, handoff_confirmed := true }) := by
  refine ⟨?_, ?_, ?_⟩
  · simp [processResult, handoffCheck]
  · intro hc
    have h1 : mainProcessQuestion
        [Event.handoff "triage_agent" "assumption_agent",
         Event.message "assumption_agent" aOut,
         Event.handoff "assumption_agent" "critic_agent",
         Event.finalOutput "critic_agent" cOut] = some (processResult cOut) := rfl
    rw [h1]
    simp [processResult, hc]
  · intro hs
    have h1 : mainProcessQuestion
        [Event.handoff "triage_agent" "basic_agent",
         Event.finalOutput "basic_agent" s] = some (processResult s) := rfl
    rw [h1]
    simp [processResult, hs]

theorem C9_substring_review_detection_witness :
    handoffCheck "All figures match the filings" = false ∧
    handoffCheck "Peer review confirms the result" = true ∧
    mainProcessQuestion
      [Event.handoff "triage_agent" "assumption_agent",
       Event.message "assumption_agent" "total debt is 11415",
       Event.handoff "assumption_agent" "critic_agent",
       Event.finalOutput "critic_agent" "All figures match the filings"] =
      some { final_output := "All figures match the filings", handoff_confirmed := false } ∧
    mainProcessQuestion
      [Event.handoff "triage_agent" "basic_agent",
       Event.finalOutput "basic_agent" "Peer review confirms the result"] =
      some { final_output := "Peer review confirms the result", handoff_confirmed := true } :=
  ⟨by decide, by decide,
   (C9_substring_review_detection "Peer review confirms the result" "total debt is 11415"
      "All figures match the filings").2.1 (by decide),
   (C9_substring_review_detection "Peer review confirms the result" "total debt is 11415"
      "All figures match the filings").2.2 (by decide)⟩

/-- C10: the triage agent is configured to reach every specialist by two
distinct paths — as a synchronous consult tool (consult_basic_specialist,
consult_assumption_specialist, consult_conceptual_specialist) after which
control stays with the triage agent, and as a hand-off that transfers control
away from it; both paths exist for all three specialists. -/
theorem C10_consult_and_handoff_paths :
    (ToolRef.agentTool "consult_basic_specialist" "basic_agent"
        "Use when the question is classified as basic." ∈ triage_agent.tools) ∧
    (ToolRef.agentTool "consult_assumption_specialist" "assumption_agent"
        "Use when the question is classified as assumption-based." ∈ triage_agent.tools) ∧
    (ToolRef.agentTool "consult_conceptual_specialist" "conceptual_agent"
        "Use when the question is classified as conceptual." ∈ triage_agent.tools) ∧
    triage_agent.handoffs = ["basic_agent", "assumption_agent", "conceptual_agent"] ∧
    ValidRun "What is Gross Profit in the year ending 2024?" (fun _ _ => "specialist result")
      [Event.toolCall "triage_agent"
         (ToolRef.agentTool "consult_basic_specialist" "basic_agent"
           "Use when the question is classified as basic.")
         "What is Gross Profit in the year ending 2024?" "specialist result",
       Event.finalOutput "triage_agent" "classification basic"] ∧
    ValidRun "What is Gross Profit in the year ending 2024?" (fun _ _ => "specialist result")
      [Event.handoff "triage_agent" "basic_agent",
       Event.finalOutput "basic_agent" "Gross Profit is 32095"] := by
  refine ⟨by decide, by decide, by decide, rfl, ?_, ?_⟩
  · exact ValidTrail.tool _ triage_agent _ _ _ (by decide) (by decide)
      (ValidTrail.final "triage_agent" "classification basic")
  · exact ValidTrail.handoff _ triage_agent _ _ (by decide) (by decide)
      (ValidTrail.final "basic_agent" "Gross Profit is 32095")

/-- A concrete Assumption-category run in which the assumption agent produces a
terminal output without ever handing off to the critic. -/
def c1Trail : List Event :=
  [Event.handoff "triage_agent" "assumption_agent",
   Event.message "assumption_agent"
     "Assuming a share price of 940, market debt to equity is 0.027",
   Event.finalOutput "assumption_agent"
     "Based on the stated assumptions, market debt to equity is 0.027"]

/-- C1 counterexample: a valid Assumption-category Run reaches its terminal
output with zero hand-offs to the critic and zero critic reports, and the batch
driver still accepts the assumption agent's output as the final answer — it
only reports the heuristic no-handoff warning; the Run does not end in any
failed-terminal state and MissingMandatoryHandoff does not exist. -/
theorem C1_counterexample :
    ValidRun "What is market debt to equity ratio?"
      (fun _ _ => "no market price found in context") c1Trail ∧
    runCategory c1Trail = some Category.assumption ∧
    handoffsTo "critic_agent" c1Trail = 0 ∧
    mainProcessQuestion c1Trail =
      some { final_output := "Based on the stated assumptions, market debt to equity is 0.027",
             handoff_confirmed := false } := by
  refine ⟨?_, by decide, by decide, by decide⟩
  exact ValidTrail.handoff _ triage_agent _ _ (by decide) (by decide)
    (ValidTrail.message _ _ _
      (ValidTrail.final "assumption_agent"
        "Based on the stated assumptions, market debt to equity is 0.027"))

/-- C1 amended: for Runs delegated to the assumption agent the configuration
permits hand-off only to the critic, but the hand-off is not enforced — a Run
may reach its terminal output with no hand-off and no critic report, in which
case the driver reports handoff_confirmed false yet still accepts the
assumption agent's output as the final answer; there is no forced retry and no
MissingMandatoryHandoff failure. -/
theorem C1_amended_handoff_not_enforced (q : String)
    (adapter : ToolRef → String → String) (s : String)
    (h : handoffCheck s = false) :
    assumption_agent.handoffs = ["critic_agent"] ∧
    ValidRun q adapter
      [Event.handoff "triage_agent" "assumption_agent",
       Event.finalOutput "assumption_agent" s] ∧
    mainProcessQuestion
      [Event.handoff "triage_agent" "assumption_agent",
       Event.finalOutput "assumption_agent" s] =
      some { final_output := s, handoff_confirmed := false } := by
  refine ⟨rfl, ?_, ?_⟩
  · exact ValidTrail.handoff _ triage_agent _ _ (by decide) (by decide)
      (ValidTrail.final "assumption_agent" s)
  · have h1 : mainProcessQuestion
        [Event.handoff "triage_agent" "assumption_agent",
         Event.finalOutput "assumption_agent" s] = some (processResult s) := rfl
    rw [h1]
    simp [processResult, h]

theorem C1_amended_handoff_not_enforced_witness :
    handoffCheck "Based on the assumptions the ratio is 0.027" = false ∧
    (assumption_agent.handoffs = ["critic_agent"] ∧
     ValidRun "What is market debt to equity ratio?" (fun _ _ => "snippet")
       [Event.handoff "triage_agent" "assumption_agent",
        Event.finalOutput "assumption_agent" "Based on the assumptions the ratio is 0.027"] ∧
     mainProcessQuestion
       [Event.handoff "triage_agent" "assumption_agent",
        Event.finalOutput "assumption_agent" "Based on the assumptions the ratio is 0.027"] =
       some { final_output := "Based on the assumptions the ratio is 0.027",
              handoff_confirmed := false }) :=
  ⟨by decide,
   C1_amended_handoff_not_enforced "What is market debt to equity ratio?"
     (fun _ _ => "snippet") "Based on the assumptions the ratio is 0.027" (by decide)⟩

/-- A concrete run in which the triage agent itself terminates with an answer. -/
def c4Trail : List Event :=
  [Event.finalOutput "triage_agent"
    "The Gross Profit for the year ending 2024 is 32095 million"]

/-- C4 counterexample: a valid Run in which the Triage Classifier produces a
final answer directly, and the driver accepts that answer as the Run's result
instead of rejecting it. -/
theorem C4_counterexample :
    ValidRun "What is Gross Profit in the year ending 2024?" (fun _ _ => "snippet") c4Trail ∧
    runCategory c4Trail = none ∧
    mainProcessQuestion c4Trail =
      some { final_output := "The Gross Profit for the year ending 2024 is 32095 million",
             handoff_confirmed := false } := by
  exact ⟨ValidTrail.final _ _, by decide, by decide⟩

/-- C4 amended: the Triage Classifier is instructed by its prompt never to
produce a final answer, but the Orchestrator performs no rejection — a Run in
which the triage agent terminates with its own output is accepted, that output
becoming the Run's result. -/
theorem C4_amended_triage_answer_accepted (q : String)
    (adapter : ToolRef → String → String) (s : String) :
    pyContains triage_agent.instructions "DO NOT try to answer the question yourself" = true ∧
    ValidRun q adapter [Event.finalOutput "triage_agent" s] ∧
    mainProcessQuestion [Event.finalOutput "triage_agent" s] = some (processResult s) ∧
    (processResult s).final_output = s := by
  exact ⟨by decide, ValidTrail.final _ _, rfl, rfl⟩

/-- C5: the corpus searched by every agent's document file-search tool is the
hardcoded vector store fixed at import time; the vector store created and
populated with the context file at batch start is never attached to any tool,
so document search draws from the fixed store, not from the corpus registered
for the Question at batch start (unless the service happens to assign the new
store the very same id). -/
theorem C5_document_search_ignores_registered_corpus (assignedId : String) :
    ToolRef.vectorStoreIds file_search_tool = ["vs_68993210d6d481918d95319746f5d133"] ∧
    (mainVectorStoreSetup assignedId).name = "financial_context" ∧
    (mainVectorStoreSetup assignedId).files = ["src/data/context.txt"] ∧
    ((mainVectorStoreSetup assignedId).id ∈ ToolRef.vectorStoreIds file_search_tool ↔
      assignedId = "vs_68993210d6d481918d95319746f5d133") ∧
    (∀ agA ∈ agents, ∀ t ∈ agA.tools,
      ToolRef.vectorStoreIds t = [] ∨
        ToolRef.vectorStoreIds t = ["vs_68993210d6d481918d95319746f5d133"]) := by
  refine ⟨rfl, rfl, rfl, ?_, by decide⟩
  simp [mainVectorStoreSetup, file_search_tool, ToolRef.vectorStoreIds]

/-- A concrete run whose final output has none of the required structured
shape. -/
def c6Trail : List Event :=
  [Event.handoff "triage_agent" "basic_agent",
   Event.finalOutput "basic_agent" "42"]

/-- C6 counterexample: a valid Run whose Responder output matches none of the
required structured shape is accepted as the Run's answer with no retry and no
MalformedOutput failure — the malformed output is silently accepted. -/
theorem C6_counterexample :
    ValidRun "What is Gross Profit in the year ending 2024?" (fun _ _ => "snippet") c6Trail ∧
    specRequiredShape "42" = false ∧
    mainProcessQuestion c6Trail =
      some { final_output := "42", handoff_confirmed := false } := by
  refine ⟨?_, by decide, by decide⟩
  exact ValidTrail.handoff _ triage_agent _ _ (by decide) (by decide)
    (ValidTrail.final "basic_agent" "42")

/-- C6 amended: the driver performs no output-shape validation and no
corrective retry — any final output string, however malformed with respect to
the required structured shape, is accepted unchanged as the Run's answer, and
no MalformedOutput failure state exists. -/
theorem C6_amended_no_shape_validation (q : String)
    (adapter : ToolRef → String → String) (s : String)
    (h : specRequiredShape s = false) :
    ValidRun q adapter
      [Event.handoff "triage_agent" "basic_agent",
       Event.finalOutput "basic_agent" s] ∧
    mainProcessQuestion
      [Event.handoff "triage_agent" "basic_agent",
       Event.finalOutput "basic_agent" s] =
      some { final_output := s, handoff_confirmed := handoffCheck s } := by
  refine ⟨?_, rfl⟩
  exact ValidTrail.handoff _ triage_agent _ _ (by decide) (by decide)
    (ValidTrail.final "basic_agent" s)

theorem C6_amended_no_shape_validation_witness :
    specRequiredShape "42" = false ∧
    ValidRun "What is Gross Profit in the year ending 2024?" (fun _ _ => "snippet")
      [Event.handoff "triage_agent" "basic_agent",
       Event.finalOutput "basic_agent" "42"] ∧
    mainProcessQuestion
      [Event.handoff "triage_agent" "basic_agent",
       Event.finalOutput "basic_agent" "42"] =
      some { final_output := "42", handoff_confirmed := false } :=
  ⟨by decide,
   (C6_amended_no_shape_validation "What is Gross Profit in the year ending 2024?"
      (fun _ _ => "snippet") "42" (by decide)).1,
   by decide⟩

/-- A concrete reviewed Assumption run: the assumption agent documents its
figures, hands off to the critic, and the critic terminates with a critique
that restates neither the assumption output nor its figure. -/
def c7Trail : List Event :=
  [Event.handoff "triage_agent" "assumption_agent",
   Event.message "assumption_agent"
     "With the documented assumptions, final_result is 0.0273",
   Event.handoff "assumption_agent" "critic_agent",
   Event.finalOutput "critic_agent"
     "Critique: the debt figure was misread, the correct ratio is 0.031"]

/-- C7 counterexample: in a valid Assumption Run that reaches its terminal
output via review, the Run's final answer is the critic's own output, which
neither contains the assumption agent's output nor preserves its figure — the
final answer is not the assumption output with the critic report attached as
an annotation. -/
theorem C7_counterexample :
    ValidRun "What is market debt to equity ratio?" (fun _ _ => "snippet") c7Trail ∧
    runCategory c7Trail = some Category.assumption ∧
    handoffsTo "critic_agent" c7Trail = 1 ∧
    runFinalOutput c7Trail =
      some "Critique: the debt figure was misread, the correct ratio is 0.031" ∧
    pyContains "Critique: the debt figure was misread, the correct ratio is 0.031"
      "With the documented assumptions, final_result is 0.0273" = false ∧
    pyContains "Critique: the debt figure was misread, the correct ratio is 0.031"
      "0.0273" = false := by
  refine ⟨?_, by decide, by decide, by decide, by decide, by decide⟩
  exact ValidTrail.handoff _ triage_agent _ _ (by decide) (by decide)
    (ValidTrail.message _ _ _
      (ValidTrail.handoff _ assumption_agent _ _ (by decide) (by decide)
        (ValidTrail.final "critic_agent"
          "Critique: the debt figure was misread, the correct ratio is 0.031")))

/-- C7 amended: for every Assumption Run that reaches its terminal output via a
hand-off to the critic, the Run's final answer is the critic agent's own
output; the driver does not combine or annotate it with the assumption agent's
output, whose figures therefore appear in the final answer only if the critic
chooses to restate them. -/
theorem C7_amended_final_answer_is_critic_output (q : String)
    (adapter : ToolRef → String → String) (aOut cOut : String) :
    ValidRun q adapter
      [Event.handoff "triage_agent" "assumption_agent",
       Event.message "assumption_agent" aOut,
       Event.handoff "assumption_agent" "critic_agent",
       Event.finalOutput "critic_agent" cOut] ∧
    runFinalOutput
      [Event.handoff "triage_agent" "assumption_agent",
       Event.message "assumption_agent" aOut,
       Event.handoff "assumption_agent" "critic_agent",
       Event.finalOutput "critic_agent" cOut] = some cOut ∧
    mainProcessQuestion
      [Event.handoff "triage_agent" "assumption_agent",
       Event.message "assumption_agent" aOut,
       Event.handoff "assumption_agent" "critic_agent",
       Event.finalOutput "critic_agent" cOut] = some (processResult cOut) := by
  refine ⟨?_, rfl, rfl⟩
  exact ValidTrail.handoff _ triage_agent _ _ (by decide) (by decide)
    (ValidTrail.message _ _ _
      (ValidTrail.handoff _ assumption_agent _ _ (by decide) (by decide)
        (ValidTrail.final "critic_agent" cOut)))

/-- C8 counterexample: two valid Runs of the identical Question with the
identical deterministic Capability Adapter produce different Classification
categories — nothing in the code pins the generation capability, so run-to-run
agreement of the classification is not guaranteed. -/
theorem C8_counterexample :
    ValidRun "What is Gross Profit in the year ending 2024?"
      (fun _ _ => "gross profit 32095")
      [Event.handoff "triage_agent" "basic_agent",
       Event.finalOutput "basic_agent" "From the context, Gross Profit is 32095"] ∧
    ValidRun "What is Gross Profit in the year ending 2024?"
      (fun _ _ => "gross profit 32095")
      [Event.handoff "triage_agent" "conceptual_agent",
       Event.finalOutput "conceptual_agent"
         "Gross Profit is revenue minus cost of goods sold"] ∧
    runCategory
      [Event.handoff "triage_agent" "basic_agent",
       Event.finalOutput "basic_agent" "From the context, Gross Profit is 32095"] ≠
    runCategory
      [Event.handoff "triage_agent" "conceptual_agent",
       Event.finalOutput "conceptual_agent"
         "Gross Profit is revenue minus cost of goods sold"] := by
  refine ⟨?_, ?_, by decide⟩
  · exact ValidTrail.handoff _ triage_agent _ _ (by decide) (by decide)
      (ValidTrail.final "basic_agent" "From the context, Gross Profit is 32095")
  · exact ValidTrail.handoff _ triage_agent _ _ (by decide) (by decide)
      (ValidTrail.final "conceptual_agent"
        "Gross Profit is revenue minus cost of goods sold")

/-- C8 amended: what identical deterministic Capability Adapter responses do
guarantee is reproducibility of the adapter layer — any ToolCall recorded in
two Runs of the same Question with the same tool and query carries the same
result; the Classification category itself is not guaranteed equal between the
two Runs, since the generation capability is unpinned. -/
theorem C8_amended_adapter_determinism (q : String)
    (adapter : ToolRef → String → String) (tr1 tr2 : List Event)
    (h1 : ValidRun q adapter tr1) (h2 : ValidRun q adapter tr2)
    (a1 a2 : String) (t : ToolRef) (qq r1 r2 : String)
    (m1 : Event.toolCall a1 t qq r1 ∈ tr1) (m2 : Event.toolCall a2 t qq r2 ∈ tr2) :
    r1 = r2 :=
  (tool_result_from_adapter h1 a1 t qq r1 m1).trans
    (tool_result_from_adapter h2 a2 t qq r2 m2).symm

/-- First run used by the determinism witness. -/
def c8wTrail1 : List Event :=
  [Event.handoff "triage_agent" "basic_agent",
   Event.toolCall "basic_agent" file_search_tool "gross profit 2024" "gross profit 32095",
   Event.finalOutput "basic_agent" "Gross Profit is 32095"]

/-- Second run used by the determinism witness. -/
def c8wTrail2 : List Event :=
  [Event.handoff "triage_agent" "basic_agent",
   Event.toolCall "basic_agent" file_search_tool "gross profit 2024" "gross profit 32095",
   Event.finalOutput "basic_agent" "The context shows a Gross Profit of 32095"]

theorem C8_amended_adapter_determinism_witness :
    ("gross profit 32095" : String) = "gross profit 32095" :=
  C8_amended_adapter_determinism "What is Gross Profit in the year ending 2024?"
    (fun _ _ => "gross profit 32095") c8wTrail1 c8wTrail2
    (ValidTrail.handoff _ triage_agent _ _ (by decide) (by decide)
      (ValidTrail.tool _ basic_agent _ _ _ (by decide) (by decide)
        (ValidTrail.final "basic_agent" "Gross Profit is 32095")))
    (ValidTrail.handoff _ triage_agent _ _ (by decide) (by decide)
      (ValidTrail.tool _ basic_agent _ _ _ (by decide) (by decide)
        (ValidTrail.final "basic_agent" "The context shows a Gross Profit of 32095")))
    "basic_agent" "basic_agent" file_search_tool "gross profit 2024"
    "gross profit 32095" "gross profit 32095" (by decide) (by decide)
